import Mathlib

/-!
Verification of the sensor-metrics service (`src/main.py`).

The service exposes two operations: ingest one sensor reading
(`create_metric`, POST /metrics) and compute a per-metric-type statistic
over a time window (`query_metrics`, GET /metrics/query).  This file is a
shallow embedding of that code: Python `datetime` values become wall-clock
seconds plus an optional UTC-offset, float values become rationals, and the
SQLite store becomes a list of rows with a next-id counter.  The query
pipeline (window derivation, timezone attachment, range validation,
filtered grouped aggregation, shaping) is translated line by line from
`query_metrics`.
-/

namespace SensorMetrics

/-- A Python `datetime`: wall-clock time in seconds together with an
optional fixed UTC offset in seconds (`tz = none` models a naive datetime,
`tz = some o` an aware one with `utcoffset = o`). -/
structure PyDateTime where
  wall : Int
  tz : Option Int
deriving DecidableEq, Repr

/-- The instant an aware datetime denotes, as seconds UTC.  (Only used on
aware values; the code compares datetimes after both are made aware.) -/
def PyDateTime.instant (d : PyDateTime) : Int :=
  d.wall - d.tz.getD 0

/-- `d - timedelta(seconds = s)`: shifts the wall clock, keeps the tzinfo. -/
def PyDateTime.subSeconds (d : PyDateTime) (s : Int) : PyDateTime :=
  ⟨d.wall - s, d.tz⟩

/-- `timedelta(days=1)` in seconds. -/
def daySeconds : Int := 86400

/-- `timedelta(days=31)` in seconds. -/
def monthSeconds : Int := 31 * 86400

/-- `main.py` lines 106-109: `if x.tzinfo is None: x = x.replace(tzinfo=timezone.utc)`.
Attaches UTC to a naive datetime without converting the wall clock; an
aware datetime is left untouched. -/
def attachUTC (d : PyDateTime) : PyDateTime :=
  match d.tz with
  | none => ⟨d.wall, some 0⟩
  | some _ => d

/-- `main.py` lines 94-109: default date-range logic followed by timezone
attachment.  `now` is `datetime.now(timezone.utc)` captured once at line 95,
given here as its instant (its tzinfo is UTC).  A Python `datetime` object is
always truthy, so `not start_date` is a `None` test. -/
def deriveWindow (now : Int) (start_date end_date : Option PyDateTime) :
    PyDateTime × PyDateTime :=
  let nowDT : PyDateTime := ⟨now, some 0⟩
  let raw : PyDateTime × PyDateTime :=
    match start_date, end_date with
    | none, none => (nowDT.subSeconds daySeconds, nowDT)
    | some s, none => (s, nowDT)
    | none, some e => (e.subSeconds daySeconds, e)
    | some s, some e => (s, e)
  (attachUTC raw.1, attachUTC raw.2)

/-- Outcomes the HTTP layer distinguishes: a 422 request-validation
rejection (FastAPI, before the handler body runs) versus a 400
`HTTPException` raised inside the handler with a `detail` message. -/
inductive QueryError where
  | requestValidation : String → QueryError
  | badRequest : String → QueryError
deriving DecidableEq, Repr

/-- `main.py` lines 111-122: range validation, first failure wins.  Both
bounds are aware here, so `>` and `-` act on instants. -/
def validateWindow (s e : PyDateTime) : Option QueryError :=
  if s.instant > e.instant then
    some (.badRequest "Start date cannot be after end date.")
  else if e.instant - s.instant > monthSeconds then
    some (.badRequest "Query range cannot exceed 1 month (31 days).")
  else
    none

/-- The four statistics admitted by the route's `pattern="^(min|max|sum|average)$"`. -/
inductive Stat where
  | min | max | sum | average
deriving DecidableEq, Repr

/-- FastAPI's anchored-pattern check on the `statistic` query parameter:
accepts exactly the four literals. -/
def parseStat (s : String) : Option Stat :=
  if s = "min" then some .min
  else if s = "max" then some .max
  else if s = "sum" then some .sum
  else if s = "average" then some .average
  else none

/-- One stored row of the `metrics` table (`MetricDB`).  `value` is modelled
as a rational; `timestamp` as the UTC instant in seconds. -/
structure Reading where
  id : Nat
  sensor_id : String
  metric_type : String
  value : ℚ
  timestamp : Int
deriving DecidableEq, Repr

/-- The SQLite store: the rows of the `metrics` table and the next value of
the autoincrementing primary key. -/
structure Store where
  rows : List Reading
  nextId : Nat
deriving DecidableEq, Repr

/-- The `MetricCreate` request body (`main.py` lines 30-37).  The fields are
typed but carry no further constraint: no `min_length` on the strings and no
finiteness predicate on the value, so any string -- including the empty
string -- passes request validation.  `timestamp` is optional. -/
structure MetricCreate where
  sensor_id : String
  metric_type : String
  value : ℚ
  timestamp : Option Int
deriving DecidableEq, Repr

/-- One element of the query response (`QueryResult` schema). -/
structure QueryResult where
  metric_type : String
  statistic : String
  value : ℚ
deriving DecidableEq, Repr

/-- `round(val, 2)`: round to two decimal places. -/
def round2 (q : ℚ) : ℚ :=
  (round (q * 100) : ℤ) / 100

/-- `main.py` lines 59-76, `create_metric`: resolve the timestamp
(`metric.timestamp or now`; datetimes are truthy, so this is a `None`
check), build the row, append it, and return the refreshed row with its
assigned id. -/
def create_metric (now : Int) (metric : MetricCreate) (db : Store) :
    Reading × Store :=
  let ts := metric.timestamp.getD now
  let db_metric : Reading :=
    ⟨db.nextId, metric.sensor_id, metric.metric_type, metric.value, ts⟩
  (db_metric, ⟨db.rows ++ [db_metric], db.nextId + 1⟩)

/-- Python truthiness of an `Optional[List[str]]`: `None` and `[]` are
falsy, a non-empty list is truthy (`if sensor_ids:` at lines 141/143). -/
def truthy : Option (List String) → Bool
  | none => false
  | some l => !l.isEmpty

/-- The WHERE clause of the query (`main.py` lines 140-147): the sensor
filter only when `sensor_ids` is truthy, the metric filter only when
`metrics` is truthy, and the inclusive timestamp range always. -/
def rowMatches (sensor_ids metrics : Option (List String)) (s e : PyDateTime)
    (r : Reading) : Bool :=
  (!truthy sensor_ids || decide (r.sensor_id ∈ sensor_ids.getD []))
  && (!truthy metrics || decide (r.metric_type ∈ metrics.getD []))
  && decide (s.instant ≤ r.timestamp)
  && decide (r.timestamp ≤ e.instant)

/-- The rows satisfying the WHERE clause. -/
def matchedRows (sensor_ids metrics : Option (List String)) (s e : PyDateTime)
    (db : Store) : List Reading :=
  db.rows.filter (rowMatches sensor_ids metrics s e)

/-- The distinct metric types of a row list: the GROUP BY keys. -/
def metricTypes (rows : List Reading) : List String :=
  (rows.map Reading.metric_type).dedup

/-- The values of one `metric_type` group among the matched rows. -/
def groupVals (sensor_ids metrics : Option (List String)) (s e : PyDateTime)
    (db : Store) (m : String) : List ℚ :=
  ((matchedRows sensor_ids metrics s e db).filter
    (fun r => decide (r.metric_type = m))).map Reading.value

/-- SQL `MIN/MAX/SUM/AVG` over a group's values: `NULL` (`none`) on an empty
group, otherwise the fold the aggregate denotes. -/
def aggValue (st : Stat) : List ℚ → Option ℚ
  | [] => none
  | x :: xs =>
    some (match st with
      | .min => xs.foldl min x
      | .max => xs.foldl max x
      | .sum => (x :: xs).sum
      | .average => (x :: xs).sum / ((x :: xs).length : ℚ))

/-- `main.py` lines 124-152: the grouped aggregate rows
`(metric_type, count, result)` the store returns, one per GROUP BY key. -/
def aggregateRows (st : Stat) (sensor_ids metrics : Option (List String))
    (s e : PyDateTime) (db : Store) : List (String × Nat × Option ℚ) :=
  (metricTypes (matchedRows sensor_ids metrics s e db)).map
    (fun m =>
      (m, (groupVals sensor_ids metrics s e db m).length,
        aggValue st (groupVals sensor_ids metrics s e db m)))

/-- `main.py` lines 154-166: the shaping loop.  A row whose aggregate is
`None` is skipped; otherwise its value is rounded to 2 decimals and emitted
under the requested statistic's name. -/
def shapeOutput (statistic : String) (results : List (String × Nat × Option ℚ)) :
    List QueryResult :=
  results.filterMap (fun row =>
    row.2.2.map (fun v => ⟨row.1, statistic, round2 v⟩))

/-- `main.py` lines 78-166, `query_metrics`, with the transport layer's
pattern check on `statistic` made explicit as the first step (FastAPI
rejects a non-matching `statistic` with a 422 before the handler body
runs). -/
def query_metrics (now : Int) (sensor_ids metrics : Option (List String))
    (statistic : String) (start_date end_date : Option PyDateTime)
    (db : Store) : Except QueryError (List QueryResult) :=
  match parseStat statistic with
  | none => .error (.requestValidation "string should match pattern: min, max, sum, average")
  | some st =>
    let w := deriveWindow now start_date end_date
    match validateWindow w.1 w.2 with
    | some err => .error err
    | none => .ok (shapeOutput statistic (aggregateRows st sensor_ids metrics w.1 w.2 db))

/-- Specification side of the refinement, following the claim wording for
C3/C4: a row contributes to the `metric_type` group `m` exactly when its
timestamp lies in `[start_date, end_date]` inclusive at both ends, its
`sensor_id` is in `sensor_ids` when `sensor_ids` is provided, its
`metric_type` is in `metrics` when provided, and its `metric_type` is `m`.
To be compared with the WHERE/GROUP BY pipeline of the source
(`rowMatches`/`groupVals`). -/
def specContribPred (sensor_ids metrics : Option (List String)) (s e : PyDateTime)
    (m : String) (r : Reading) : Bool :=
  decide (s.instant ≤ r.timestamp) && decide (r.timestamp ≤ e.instant)
  && (match sensor_ids with
      | none => true
      | some l => decide (r.sensor_id ∈ l))
  && (match metrics with
      | none => true
      | some l => decide (r.metric_type ∈ l))
  && decide (r.metric_type = m)

/-- The values of the rows contributing to group `m` per the specification's
filter description. -/
def specContrib (sensor_ids metrics : Option (List String)) (s e : PyDateTime)
    (m : String) (db : Store) : List ℚ :=
  (db.rows.filter (specContribPred sensor_ids metrics s e m)).map Reading.value

end SensorMetrics

namespace SensorMetrics

/-- The first validation branch fires when the derived start instant is
after the derived end instant. -/
theorem validateWindow_start_after {s e : PyDateTime}
    (h : e.instant < s.instant) :
    validateWindow s e = some (.badRequest "Start date cannot be after end date.") := by
  unfold validateWindow
  rw [if_pos h]

/-- The second validation branch fires when the span exceeds 31 days. -/
theorem validateWindow_too_large {s e : PyDateTime}
    (h1 : s.instant ≤ e.instant) (h2 : monthSeconds < e.instant - s.instant) :
    validateWindow s e
      = some (.badRequest "Query range cannot exceed 1 month (31 days).") := by
  unfold validateWindow
  rw [if_neg (not_lt.mpr h1), if_pos h2]

/-- Validation passes when the window is ordered and spans at most 31 days. -/
theorem validateWindow_ok {s e : PyDateTime}
    (h1 : s.instant ≤ e.instant) (h2 : e.instant - s.instant ≤ monthSeconds) :
    validateWindow s e = none := by
  unfold validateWindow
  rw [if_neg (not_lt.mpr h1), if_neg (not_lt.mpr h2)]

/-- Unfolding `query_metrics` on the error path of window validation. -/
theorem query_metrics_eq_error {now : Int} {si me : Option (List String)}
    {stat : String} {st : Stat} {sd ed : Option PyDateTime} {db : Store}
    {s e : PyDateTime} {err : QueryError}
    (hstat : parseStat stat = some st)
    (hw : deriveWindow now sd ed = (s, e))
    (hv : validateWindow s e = some err) :
    query_metrics now si me stat sd ed db = .error err := by
  simp only [query_metrics, hstat, hw, hv]

/-- Unfolding `query_metrics` on the success path. -/
theorem query_metrics_eq_ok {now : Int} {si me : Option (List String)}
    {stat : String} {st : Stat} {sd ed : Option PyDateTime} {db : Store}
    {s e : PyDateTime}
    (hstat : parseStat stat = some st)
    (hw : deriveWindow now sd ed = (s, e))
    (hv : validateWindow s e = none) :
    query_metrics now si me stat sd ed db
      = .ok (shapeOutput stat (aggregateRows st si me s e db)) := by
  simp only [query_metrics, hstat, hw, hv]

/-- With a provided filter list known non-empty (or absent), the claim-side
contribution predicate agrees with the metric-type restriction of the
source's WHERE clause. -/
theorem specContribPred_eq {si me : Option (List String)} {s e : PyDateTime}
    {m : String} (hsi : si ≠ some []) (hme : me ≠ some []) (r : Reading) :
    specContribPred si me s e m r
      = (decide (r.metric_type = m) && rowMatches si me s e r) := by
  have key : ∀ A B S M T : Bool,
      (A && B && S && M && T) = (T && (S && M && A && B)) := by decide
  unfold specContribPred rowMatches
  cases si with
  | none =>
    cases me with
    | none =>
      simp only [truthy, Bool.not_false, Bool.true_or]
      exact key _ _ _ _ _
    | some lm =>
      cases lm with
      | nil => exact absurd rfl hme
      | cons b bs =>
        simp only [truthy, List.isEmpty_cons, Bool.not_false, Bool.not_true,
          Bool.true_or, Bool.false_or, Option.getD_some]
        exact key _ _ _ _ _
  | some ls =>
    cases ls with
    | nil => exact absurd rfl hsi
    | cons a as =>
      cases me with
      | none =>
        simp only [truthy, List.isEmpty_cons, Bool.not_false, Bool.not_true,
          Bool.true_or, Bool.false_or, Option.getD_some]
        exact key _ _ _ _ _
      | some lm =>
        cases lm with
        | nil => exact absurd rfl hme
        | cons b bs =>
          simp only [truthy, List.isEmpty_cons, Bool.not_false, Bool.not_true,
            Bool.true_or, Bool.false_or, Option.getD_some]
          exact key _ _ _ _ _

/-- The grouped values of the source pipeline coincide with the claim-side
contribution list. -/
theorem groupVals_eq_specContrib {si me : Option (List String)} {s e : PyDateTime}
    {db : Store} (hsi : si ≠ some []) (hme : me ≠ some []) (m : String) :
    groupVals si me s e db m = specContrib si me s e m db := by
  unfold groupVals specContrib matchedRows
  rw [List.filter_filter]
  congr 1
  exact List.filter_congr fun r _ => (specContribPred_eq hsi hme r).symm

/-- Membership in the GROUP BY keys is existence of a matching row. -/
theorem mem_metricTypes_iff {rows : List Reading} {m : String} :
    m ∈ metricTypes rows ↔ ∃ r ∈ rows, r.metric_type = m := by
  unfold metricTypes
  rw [List.mem_dedup, List.mem_map]

/-- A group is empty exactly when no matched row carries its metric type. -/
theorem groupVals_eq_nil_iff {si me : Option (List String)} {s e : PyDateTime}
    {db : Store} {m : String} :
    groupVals si me s e db m = []
      ↔ ∀ r ∈ matchedRows si me s e db, ¬(r.metric_type = m) := by
  simp [groupVals]

/-- The claim-side contribution list is empty exactly when no matched row
carries the metric type. -/
theorem specContrib_eq_nil_iff {si me : Option (List String)} {s e : PyDateTime}
    {db : Store} {m : String} (hsi : si ≠ some []) (hme : me ≠ some []) :
    specContrib si me s e m db = []
      ↔ ∀ r ∈ matchedRows si me s e db, ¬(r.metric_type = m) := by
  rw [← groupVals_eq_specContrib hsi hme]
  exact groupVals_eq_nil_iff

/-- A left fold of `min` lands on one of the folded values. -/
theorem foldl_min_mem (xs : List ℚ) : ∀ x : ℚ, xs.foldl min x ∈ x :: xs := by
  induction xs with
  | nil => intro x; exact List.mem_singleton.mpr rfl
  | cons y ys ih =>
    intro x
    rw [List.foldl_cons]
    rcases List.mem_cons.mp (ih (min x y)) with h1 | h1
    · rcases min_choice x y with hc | hc
      · rw [h1, hc]; exact List.mem_cons_self _ _
      · rw [h1, hc]; exact List.mem_cons_of_mem _ (List.mem_cons_self _ _)
    · exact List.mem_cons_of_mem _ (List.mem_cons_of_mem _ h1)

/-- A left fold of `min` is a lower bound of the folded values. -/
theorem foldl_min_le (xs : List ℚ) :
    ∀ x : ℚ, ∀ y ∈ x :: xs, xs.foldl min x ≤ y := by
  induction xs with
  | nil =>
    intro x y hy
    rw [List.mem_singleton] at hy
    rw [hy, List.foldl_nil]
  | cons z zs ih =>
    intro x y hy
    rw [List.foldl_cons]
    rcases List.mem_cons.mp hy with h1 | h1
    · rw [h1]
      exact le_trans (ih (min x z) (min x z) (List.mem_cons_self _ _)) (min_le_left _ _)
    · rcases List.mem_cons.mp h1 with h2 | h2
      · rw [h2]
        exact le_trans (ih (min x z) (min x z) (List.mem_cons_self _ _)) (min_le_right _ _)
      · exact ih (min x z) y (List.mem_cons_of_mem _ h2)

/-- A left fold of `max` lands on one of the folded values. -/
theorem foldl_max_mem (xs : List ℚ) : ∀ x : ℚ, xs.foldl max x ∈ x :: xs := by
  induction xs with
  | nil => intro x; exact List.mem_singleton.mpr rfl
  | cons y ys ih =>
    intro x
    rw [List.foldl_cons]
    rcases List.mem_cons.mp (ih (max x y)) with h1 | h1
    · rcases max_choice x y with hc | hc
      · rw [h1, hc]; exact List.mem_cons_self _ _
      · rw [h1, hc]; exact List.mem_cons_of_mem _ (List.mem_cons_self _ _)
    · exact List.mem_cons_of_mem _ (List.mem_cons_of_mem _ h1)

/-- A left fold of `max` is an upper bound of the folded values. -/
theorem foldl_max_ge (xs : List ℚ) :
    ∀ x : ℚ, ∀ y ∈ x :: xs, y ≤ xs.foldl max x := by
  induction xs with
  | nil =>
    intro x y hy
    rw [List.mem_singleton] at hy
    rw [hy, List.foldl_nil]
  | cons z zs ih =>
    intro x y hy
    rw [List.foldl_cons]
    rcases List.mem_cons.mp hy with h1 | h1
    · rw [h1]
      exact le_trans (le_max_left _ _) (ih (max x z) (max x z) (List.mem_cons_self _ _))
    · rcases List.mem_cons.mp h1 with h2 | h2
      · rw [h2]
        exact le_trans (le_max_right _ _) (ih (max x z) (max x z) (List.mem_cons_self _ _))
      · exact ih (max x z) y (List.mem_cons_of_mem _ h2)

/-- A non-empty group has a non-`NULL` aggregate. -/
theorem aggValue_isSome {st : Stat} {l : List ℚ} (h : l ≠ []) :
    ∃ v, aggValue st l = some v := by
  cases l with
  | nil => exact absurd rfl h
  | cons x xs => exact ⟨_, rfl⟩

/-- `SUM` of a non-empty group is the arithmetic sum. -/
theorem aggValue_sum {l : List ℚ} (h : l ≠ []) : aggValue .sum l = some l.sum := by
  cases l with
  | nil => exact absurd rfl h
  | cons x xs => rfl

/-- `AVG` of a non-empty group is sum over count. -/
theorem aggValue_average {l : List ℚ} (h : l ≠ []) :
    aggValue .average l = some (l.sum / (l.length : ℚ)) := by
  cases l with
  | nil => exact absurd rfl h
  | cons x xs => rfl

/-- `MIN` of a non-empty group is a member that bounds the group below. -/
theorem aggValue_min_spec {l : List ℚ} (h : l ≠ []) :
    ∃ v, aggValue .min l = some v ∧ v ∈ l ∧ ∀ x ∈ l, v ≤ x := by
  cases l with
  | nil => exact absurd rfl h
  | cons x xs => exact ⟨xs.foldl min x, rfl, foldl_min_mem xs x, foldl_min_le xs x⟩

/-- `MAX` of a non-empty group is a member that bounds the group above. -/
theorem aggValue_max_spec {l : List ℚ} (h : l ≠ []) :
    ∃ v, aggValue .max l = some v ∧ v ∈ l ∧ ∀ x ∈ l, x ≤ v := by
  cases l with
  | nil => exact absurd rfl h
  | cons x xs => exact ⟨xs.foldl max x, rfl, foldl_max_mem xs x, foldl_max_ge xs x⟩

/-- Every statistic of a one-value group is that value. -/
theorem aggValue_singleton (st : Stat) (v : ℚ) : aggValue st [v] = some v := by
  cases st <;> simp [aggValue]

/-- The shaped output is a `filterMap` over the GROUP BY keys. -/
theorem shape_aggregateRows (stat : String) (st : Stat)
    (si me : Option (List String)) (s e : PyDateTime) (db : Store) :
    shapeOutput stat (aggregateRows st si me s e db)
      = (metricTypes (matchedRows si me s e db)).filterMap
          (fun m => (aggValue st (groupVals si me s e db m)).map
            (fun v => QueryResult.mk m stat (round2 v))) := by
  unfold shapeOutput aggregateRows
  rw [List.filterMap_map]
  rfl

/-- Counting entries of one metric type in the shaped output over a
duplicate-free key list with total aggregates: one if the key is present,
zero otherwise. -/
theorem countP_metric (stat : String) (f : String → Option ℚ) (m : String) :
    ∀ L : List String, L.Nodup → (∀ x ∈ L, ∃ v, f x = some v) →
    (L.filterMap (fun x => (f x).map
        (fun v => QueryResult.mk x stat (round2 v)))).countP
        (fun qr => qr.metric_type == m)
      = if m ∈ L then 1 else 0 := by
  intro L
  induction L with
  | nil => intro _ _; simp
  | cons a as ih =>
    intro hnd hs
    obtain ⟨v, hv⟩ := hs a (List.mem_cons_self a as)
    obtain ⟨ha, has⟩ := List.nodup_cons.mp hnd
    simp only [List.filterMap_cons, hv, Option.map_some', List.countP_cons,
      ih has (fun x hx => hs x (List.mem_cons_of_mem _ hx))]
    by_cases hm : a = m
    · subst hm
      simp [ha]
    · simp [hm, Ne.symm hm]

/-- The WHERE clause with singleton filter lists, read as a proposition. -/
theorem rowMatches_singleton_iff {sid mt : String} {s e : PyDateTime} {r : Reading} :
    rowMatches (some [sid]) (some [mt]) s e r = true
      ↔ r.sensor_id = sid ∧ r.metric_type = mt
        ∧ s.instant ≤ r.timestamp ∧ r.timestamp ≤ e.instant := by
  simp [rowMatches, truthy, and_assoc]

/-- C1: the effective window is derived from the optional bounds exactly as
specified, with `now` a single per-call value: neither bound given gives
`[now - 24h, now]`; only `start_date` given makes `end_date := now`; only
`end_date` given makes `start_date := end_date - 24h`; both given are used
as-is; and afterwards a bound lacking timezone information has UTC attached
without conversion (wall clock preserved, offset unchanged when present). -/
theorem C1_window_derivation (now : Int) :
    deriveWindow now none none = (⟨now - daySeconds, some 0⟩, ⟨now, some 0⟩)
    ∧ (∀ sd : PyDateTime,
        deriveWindow now (some sd) none = (attachUTC sd, ⟨now, some 0⟩))
    ∧ (∀ ed : PyDateTime,
        deriveWindow now none (some ed)
          = (attachUTC (ed.subSeconds daySeconds), attachUTC ed))
    ∧ (∀ sd ed : PyDateTime,
        deriveWindow now (some sd) (some ed) = (attachUTC sd, attachUTC ed))
    ∧ (∀ d : PyDateTime,
        (attachUTC d).wall = d.wall ∧ (attachUTC d).tz = some (d.tz.getD 0)) := by
  refine ⟨rfl, fun sd => rfl, fun ed => rfl, fun sd ed => rfl, fun d => ?_⟩
  cases h : d.tz with
  | none => simp [attachUTC, h]
  | some o => simp [attachUTC, h]

/-- C2: on the derived window, validation applies in order with the first
failure winning: a start after the end fails with exactly "Start date
cannot be after end date."; otherwise a span strictly over 31 days fails
with exactly "Query range cannot exceed 1 month (31 days)."; a span of
exactly 31 days passes validation and the query succeeds. -/
theorem C2_range_validation (now : Int) (si me : Option (List String))
    (stat : String) (st : Stat) (sd ed : Option PyDateTime) (db : Store)
    (s e : PyDateTime)
    (hstat : parseStat stat = some st)
    (hw : deriveWindow now sd ed = (s, e)) :
    (e.instant < s.instant →
      query_metrics now si me stat sd ed db
        = .error (.badRequest "Start date cannot be after end date."))
    ∧ (s.instant ≤ e.instant → monthSeconds < e.instant - s.instant →
      query_metrics now si me stat sd ed db
        = .error (.badRequest "Query range cannot exceed 1 month (31 days)."))
    ∧ (s.instant ≤ e.instant → e.instant - s.instant = monthSeconds →
      ∃ out, query_metrics now si me stat sd ed db = .ok out) := by
  refine ⟨fun h1 => ?_, fun h1 h2 => ?_, fun h1 h2 => ?_⟩
  · exact query_metrics_eq_error hstat hw (validateWindow_start_after h1)
  · exact query_metrics_eq_error hstat hw (validateWindow_too_large h1 h2)
  · exact ⟨_, query_metrics_eq_ok hstat hw (validateWindow_ok h1 (le_of_eq h2))⟩

/-- Witness for C2 at concrete windows: a reversed pair of bounds, a
31-days-plus-one-second span, and an exact 31-day span. -/
theorem C2_range_validation_witness :
    ((⟨5, some 0⟩ : PyDateTime).instant < (⟨10, some 0⟩ : PyDateTime).instant →
      query_metrics 0 none none "min" (some ⟨10, some 0⟩) (some ⟨5, some 0⟩) ⟨[], 1⟩
        = .error (.badRequest "Start date cannot be after end date."))
    ∧ ((⟨10, some 0⟩ : PyDateTime).instant ≤ (⟨5, some 0⟩ : PyDateTime).instant →
        monthSeconds < (⟨5, some 0⟩ : PyDateTime).instant - (⟨10, some 0⟩ : PyDateTime).instant →
      query_metrics 0 none none "min" (some ⟨10, some 0⟩) (some ⟨5, some 0⟩) ⟨[], 1⟩
        = .error (.badRequest "Query range cannot exceed 1 month (31 days)."))
    ∧ ((⟨10, some 0⟩ : PyDateTime).instant ≤ (⟨5, some 0⟩ : PyDateTime).instant →
        (⟨5, some 0⟩ : PyDateTime).instant - (⟨10, some 0⟩ : PyDateTime).instant = monthSeconds →
      ∃ out, query_metrics 0 none none "min" (some ⟨10, some 0⟩) (some ⟨5, some 0⟩) ⟨[], 1⟩ = .ok out) :=
  C2_range_validation 0 none none "min" .min (some ⟨10, some 0⟩) (some ⟨5, some 0⟩)
    ⟨[], 1⟩ ⟨10, some 0⟩ ⟨5, some 0⟩ (by decide) rfl

/-- C6: a `statistic` outside {min, max, sum, average} is rejected as a
request-validation client error, and the rejection happens before any
domain logic: the outcome is the same 422 error for every store, window
argument, filter argument and clock, so nothing is read, derived,
validated or mutated. -/
theorem C6_invalid_statistic (now : Int) (si me : Option (List String))
    (stat : String) (sd ed : Option PyDateTime) (db : Store)
    (h : stat ∉ (["min", "max", "sum", "average"] : List String)) :
    query_metrics now si me stat sd ed db
      = .error (.requestValidation "string should match pattern: min, max, sum, average")
    ∧ ∀ (now2 : Int) (si2 me2 : Option (List String)) (sd2 ed2 : Option PyDateTime)
        (db2 : Store),
        query_metrics now2 si2 me2 stat sd2 ed2 db2
          = query_metrics now si me stat sd ed db := by
  have hp : parseStat stat = none := by
    unfold parseStat
    split_ifs with h1 h2 h3 h4
    · exact absurd (by rw [h1]; decide) h
    · exact absurd (by rw [h2]; decide) h
    · exact absurd (by rw [h3]; decide) h
    · exact absurd (by rw [h4]; decide) h
    · rfl
  refine ⟨?_, fun now2 si2 me2 sd2 ed2 db2 => ?_⟩
  · simp only [query_metrics, hp]
  · simp only [query_metrics, hp]

/-- Witness for C6 at the concrete statistic "median". -/
theorem C6_invalid_statistic_witness :
    query_metrics 0 none none "median" none none ⟨[], 1⟩
      = .error (.requestValidation "string should match pattern: min, max, sum, average")
    ∧ ∀ (now2 : Int) (si2 me2 : Option (List String)) (sd2 ed2 : Option PyDateTime)
        (db2 : Store),
        query_metrics now2 si2 me2 "median" sd2 ed2 db2
          = query_metrics 0 none none "median" none none ⟨[], 1⟩ :=
  C6_invalid_statistic 0 none none "median" none none ⟨[], 1⟩ (by decide)

/-- C3: on a validated window, the rows contributing to each metric-type
group are exactly those selected by the claim's filter (timestamp within
the inclusive window, sensor and metric membership when those lists are
provided), and each emitted value is the requested statistic over the
group's values rounded to 2 decimals: sum is the arithmetic sum, average
is sum over count, and min/max are group members bounding the group. -/
theorem C3_filtered_grouped_aggregation (now : Int) (si me : Option (List String))
    (stat : String) (st : Stat) (sd ed : Option PyDateTime) (db : Store)
    (s e : PyDateTime)
    (hstat : parseStat stat = some st)
    (hsi : si ≠ some []) (hme : me ≠ some [])
    (hw : deriveWindow now sd ed = (s, e))
    (hv : validateWindow s e = none) :
    ∃ out, query_metrics now si me stat sd ed db = .ok out
      ∧ ∀ qr ∈ out,
        qr.statistic = stat
        ∧ specContrib si me s e qr.metric_type db ≠ []
        ∧ (st = .sum →
            qr.value = round2 (specContrib si me s e qr.metric_type db).sum)
        ∧ (st = .average →
            qr.value = round2 ((specContrib si me s e qr.metric_type db).sum
              / ((specContrib si me s e qr.metric_type db).length : ℚ)))
        ∧ (st = .min → ∃ v ∈ specContrib si me s e qr.metric_type db,
            qr.value = round2 v
            ∧ ∀ x ∈ specContrib si me s e qr.metric_type db, v ≤ x)
        ∧ (st = .max → ∃ v ∈ specContrib si me s e qr.metric_type db,
            qr.value = round2 v
            ∧ ∀ x ∈ specContrib si me s e qr.metric_type db, x ≤ v) := by
  refine ⟨_, query_metrics_eq_ok hstat hw hv, ?_⟩
  intro qr hqr
  rw [shape_aggregateRows, List.mem_filterMap] at hqr
  obtain ⟨mt, hmem, hsome⟩ := hqr
  have hne : groupVals si me s e db mt ≠ [] := by
    intro hnil
    rw [groupVals_eq_nil_iff] at hnil
    obtain ⟨r, hr, hrm⟩ := mem_metricTypes_iff.mp hmem
    exact hnil r hr hrm
  obtain ⟨v, hvv⟩ := @aggValue_isSome st _ hne
  rw [hvv, Option.map_some'] at hsome
  obtain rfl := Option.some.inj hsome
  have hspec := @groupVals_eq_specContrib si me s e db hsi hme mt
  refine ⟨rfl, ?_, ?_, ?_, ?_, ?_⟩
  · show specContrib si me s e mt db ≠ []
    rw [← hspec]
    exact hne
  · intro hst
    subst hst
    show round2 v = round2 (specContrib si me s e mt db).sum
    have hveq : v = (groupVals si me s e db mt).sum :=
      Option.some.inj (hvv.symm.trans (aggValue_sum hne))
    rw [hveq, hspec]
  · intro hst
    subst hst
    show round2 v = round2 ((specContrib si me s e mt db).sum
      / ((specContrib si me s e mt db).length : ℚ))
    have hveq : v = (groupVals si me s e db mt).sum
        / ((groupVals si me s e db mt).length : ℚ) :=
      Option.some.inj (hvv.symm.trans (aggValue_average hne))
    rw [hveq, hspec]
  · intro hst
    subst hst
    obtain ⟨w, hw2, hwmem, hwle⟩ := aggValue_min_spec hne
    have hveq : v = w := Option.some.inj (hvv.symm.trans hw2)
    refine ⟨w, ?_, ?_, ?_⟩
    · rw [← hspec]
      exact hwmem
    · show round2 v = round2 w
      rw [hveq]
    · intro x hx
      rw [← hspec] at hx
      exact hwle x hx
  · intro hst
    subst hst
    obtain ⟨w, hw2, hwmem, hwge⟩ := aggValue_max_spec hne
    have hveq : v = w := Option.some.inj (hvv.symm.trans hw2)
    refine ⟨w, ?_, ?_, ?_⟩
    · rw [← hspec]
      exact hwmem
    · show round2 v = round2 w
      rw [hveq]
    · intro x hx
      rw [← hspec] at hx
      exact hwge x hx

/-- C4: on a validated window, the result holds exactly one entry per
metric-type group with at least one contributing row and no entry for a
group with none; and the shaping step drops a `None` aggregate returned by
the store instead of emitting a null or zero entry. -/
theorem C4_one_entry_per_group (now : Int) (si me : Option (List String))
    (stat : String) (st : Stat) (sd ed : Option PyDateTime) (db : Store)
    (s e : PyDateTime)
    (hstat : parseStat stat = some st)
    (hsi : si ≠ some []) (hme : me ≠ some [])
    (hw : deriveWindow now sd ed = (s, e))
    (hv : validateWindow s e = none) :
    (∃ out, query_metrics now si me stat sd ed db = .ok out
      ∧ ∀ m : String,
          out.countP (fun qr => qr.metric_type == m)
            = if specContrib si me s e m db = [] then 0 else 1)
    ∧ ∀ (name : String) (cnt : Nat) (rest : List (String × Nat × Option ℚ)),
        shapeOutput stat ((name, cnt, (none : Option ℚ)) :: rest)
          = shapeOutput stat rest := by
  constructor
  · refine ⟨_, query_metrics_eq_ok hstat hw hv, ?_⟩
    intro m
    rw [shape_aggregateRows]
    rw [countP_metric stat (fun x => aggValue st (groupVals si me s e db x)) m
      (metricTypes (matchedRows si me s e db)) (List.nodup_dedup _) ?_]
    · by_cases hm : m ∈ metricTypes (matchedRows si me s e db)
      · have hne : ¬(specContrib si me s e m db = []) := by
          intro hnil
          obtain ⟨r, hr, hrm⟩ := mem_metricTypes_iff.mp hm
          exact (specContrib_eq_nil_iff hsi hme).mp hnil r hr hrm
        rw [if_pos hm, if_neg hne]
      · have heq : specContrib si me s e m db = [] :=
          (specContrib_eq_nil_iff hsi hme).mpr
            (fun r hr hrm => hm (mem_metricTypes_iff.mpr ⟨r, hr, hrm⟩))
        rw [if_neg hm, if_pos heq]
    · intro x hx
      apply aggValue_isSome
      intro hnil
      rw [groupVals_eq_nil_iff] at hnil
      obtain ⟨r, hr, hrm⟩ := mem_metricTypes_iff.mp hx
      exact hnil r hr hrm
  · intro name cnt rest
    rfl

/-- Witness for C3 at a concrete store: three readings over a one-day
window, sensor filter ["s1"], metric filter ["temp"], statistic average. -/
theorem C3_filtered_grouped_aggregation_witness :
    parseStat "average" = some .average
    ∧ (some ["s1"] : Option (List String)) ≠ some []
    ∧ (some ["temp"] : Option (List String)) ≠ some []
    ∧ deriveWindow 0 (some ⟨0, some 0⟩) (some ⟨86400, some 0⟩)
        = (⟨0, some 0⟩, ⟨86400, some 0⟩)
    ∧ validateWindow ⟨0, some 0⟩ ⟨86400, some 0⟩ = none
    ∧ ∃ out, query_metrics 0 (some ["s1"]) (some ["temp"]) "average"
          (some ⟨0, some 0⟩) (some ⟨86400, some 0⟩)
          ⟨[⟨1, "s1", "temp", 20, 100⟩, ⟨2, "s1", "temp", 30, 200⟩,
            ⟨3, "s1", "humidity", 50, 150⟩], 4⟩ = .ok out
        ∧ ∀ qr ∈ out,
          qr.statistic = "average"
          ∧ specContrib (some ["s1"]) (some ["temp"]) ⟨0, some 0⟩ ⟨86400, some 0⟩
              qr.metric_type
              ⟨[⟨1, "s1", "temp", 20, 100⟩, ⟨2, "s1", "temp", 30, 200⟩,
                ⟨3, "s1", "humidity", 50, 150⟩], 4⟩ ≠ []
          ∧ (Stat.average = .sum →
              qr.value = round2 (specContrib (some ["s1"]) (some ["temp"])
                ⟨0, some 0⟩ ⟨86400, some 0⟩ qr.metric_type
                ⟨[⟨1, "s1", "temp", 20, 100⟩, ⟨2, "s1", "temp", 30, 200⟩,
                  ⟨3, "s1", "humidity", 50, 150⟩], 4⟩).sum)
          ∧ (Stat.average = .average →
              qr.value = round2 ((specContrib (some ["s1"]) (some ["temp"])
                ⟨0, some 0⟩ ⟨86400, some 0⟩ qr.metric_type
                ⟨[⟨1, "s1", "temp", 20, 100⟩, ⟨2, "s1", "temp", 30, 200⟩,
                  ⟨3, "s1", "humidity", 50, 150⟩], 4⟩).sum
                / ((specContrib (some ["s1"]) (some ["temp"])
                  ⟨0, some 0⟩ ⟨86400, some 0⟩ qr.metric_type
                  ⟨[⟨1, "s1", "temp", 20, 100⟩, ⟨2, "s1", "temp", 30, 200⟩,
                    ⟨3, "s1", "humidity", 50, 150⟩], 4⟩).length : ℚ)))
          ∧ (Stat.average = .min → ∃ v ∈ specContrib (some ["s1"]) (some ["temp"])
                ⟨0, some 0⟩ ⟨86400, some 0⟩ qr.metric_type
                ⟨[⟨1, "s1", "temp", 20, 100⟩, ⟨2, "s1", "temp", 30, 200⟩,
                  ⟨3, "s1", "humidity", 50, 150⟩], 4⟩,
              qr.value = round2 v
              ∧ ∀ x ∈ specContrib (some ["s1"]) (some ["temp"])
                  ⟨0, some 0⟩ ⟨86400, some 0⟩ qr.metric_type
                  ⟨[⟨1, "s1", "temp", 20, 100⟩, ⟨2, "s1", "temp", 30, 200⟩,
                    ⟨3, "s1", "humidity", 50, 150⟩], 4⟩, v ≤ x)
          ∧ (Stat.average = .max → ∃ v ∈ specContrib (some ["s1"]) (some ["temp"])
                ⟨0, some 0⟩ ⟨86400, some 0⟩ qr.metric_type
                ⟨[⟨1, "s1", "temp", 20, 100⟩, ⟨2, "s1", "temp", 30, 200⟩,
                  ⟨3, "s1", "humidity", 50, 150⟩], 4⟩,
              qr.value = round2 v
              ∧ ∀ x ∈ specContrib (some ["s1"]) (some ["temp"])
                  ⟨0, some 0⟩ ⟨86400, some 0⟩ qr.metric_type
                  ⟨[⟨1, "s1", "temp", 20, 100⟩, ⟨2, "s1", "temp", 30, 200⟩,
                    ⟨3, "s1", "humidity", 50, 150⟩], 4⟩, x ≤ v) :=
  ⟨rfl, by decide, by decide, rfl, by decide,
    C3_filtered_grouped_aggregation 0 (some ["s1"]) (some ["temp"]) "average" .average
      (some ⟨0, some 0⟩) (some ⟨86400, some 0⟩)
      ⟨[⟨1, "s1", "temp", 20, 100⟩, ⟨2, "s1", "temp", 30, 200⟩,
        ⟨3, "s1", "humidity", 50, 150⟩], 4⟩
      ⟨0, some 0⟩ ⟨86400, some 0⟩ rfl (by decide) (by decide) rfl (by decide)⟩

/-- Witness for C4 at a concrete store: two speed readings and one
temperature reading over a one-day window, statistic max, no sensor or
metric filter. -/
theorem C4_one_entry_per_group_witness :
    parseStat "max" = some .max
    ∧ (none : Option (List String)) ≠ some []
    ∧ (none : Option (List String)) ≠ some []
    ∧ deriveWindow 0 (some ⟨0, some 0⟩) (some ⟨86400, some 0⟩)
        = (⟨0, some 0⟩, ⟨86400, some 0⟩)
    ∧ validateWindow ⟨0, some 0⟩ ⟨86400, some 0⟩ = none
    ∧ ((∃ out, query_metrics 0 none none "max"
          (some ⟨0, some 0⟩) (some ⟨86400, some 0⟩)
          ⟨[⟨1, "s2", "speed", 10, 100⟩, ⟨2, "s2", "speed", 20, 200⟩,
            ⟨3, "s1", "temp", 21, 150⟩], 4⟩ = .ok out
        ∧ ∀ m : String,
            out.countP (fun qr => qr.metric_type == m)
              = if specContrib none none ⟨0, some 0⟩ ⟨86400, some 0⟩ m
                  ⟨[⟨1, "s2", "speed", 10, 100⟩, ⟨2, "s2", "speed", 20, 200⟩,
                    ⟨3, "s1", "temp", 21, 150⟩], 4⟩ = [] then 0 else 1)
      ∧ ∀ (name : String) (cnt : Nat) (rest : List (String × Nat × Option ℚ)),
          shapeOutput "max" ((name, cnt, (none : Option ℚ)) :: rest)
            = shapeOutput "max" rest) :=
  ⟨rfl, by decide, by decide, rfl, by decide,
    C4_one_entry_per_group 0 none none "max" .max
      (some ⟨0, some 0⟩) (some ⟨86400, some 0⟩)
      ⟨[⟨1, "s2", "speed", 10, 100⟩, ⟨2, "s2", "speed", 20, 200⟩,
        ⟨3, "s1", "temp", 21, 150⟩], 4⟩
      ⟨0, some 0⟩ ⟨86400, some 0⟩ rfl (by decide) (by decide) rfl (by decide)⟩

/-- C7: round-trip.  Ingest a reading whose `(sensor_id, metric_type)`
group is otherwise empty in the window, then query exactly that sensor and
metric type over a valid window containing its timestamp: the result is a
single entry whose value is the reading's value rounded to 2 decimals, for
every statistic. -/
theorem C7_round_trip (now qnow : Int) (db : Store) (mc : MetricCreate)
    (stat : String) (st : Stat) (sd ed : Option PyDateTime) (s e : PyDateTime)
    (hstat : parseStat stat = some st)
    (hw : deriveWindow qnow sd ed = (s, e))
    (hv : validateWindow s e = none)
    (hin1 : s.instant ≤ mc.timestamp.getD now)
    (hin2 : mc.timestamp.getD now ≤ e.instant)
    (hempty : ∀ r ∈ db.rows,
      ¬(r.sensor_id = mc.sensor_id ∧ r.metric_type = mc.metric_type
        ∧ s.instant ≤ r.timestamp ∧ r.timestamp ≤ e.instant)) :
    query_metrics qnow (some [mc.sensor_id]) (some [mc.metric_type]) stat sd ed
        (create_metric now mc db).2
      = .ok [⟨mc.metric_type, stat, round2 mc.value⟩] := by
  rw [query_metrics_eq_ok hstat hw hv]
  have hmrows : matchedRows (some [mc.sensor_id]) (some [mc.metric_type]) s e
      (create_metric now mc db).2
      = [⟨db.nextId, mc.sensor_id, mc.metric_type, mc.value, mc.timestamp.getD now⟩] := by
    show (db.rows
        ++ [(⟨db.nextId, mc.sensor_id, mc.metric_type, mc.value,
              mc.timestamp.getD now⟩ : Reading)]).filter
        (rowMatches (some [mc.sensor_id]) (some [mc.metric_type]) s e) = _
    rw [List.filter_append]
    have h0 : db.rows.filter
        (rowMatches (some [mc.sensor_id]) (some [mc.metric_type]) s e) = [] :=
      List.filter_eq_nil_iff.mpr
        (fun r hr hmatch => hempty r hr (rowMatches_singleton_iff.mp hmatch))
    have h1 : rowMatches (some [mc.sensor_id]) (some [mc.metric_type]) s e
        ⟨db.nextId, mc.sensor_id, mc.metric_type, mc.value, mc.timestamp.getD now⟩ = true :=
      rowMatches_singleton_iff.mpr ⟨rfl, rfl, hin1, hin2⟩
    rw [h0]
    simp [h1]
  rw [shape_aggregateRows]
  have hmt : metricTypes
      [(⟨db.nextId, mc.sensor_id, mc.metric_type, mc.value, mc.timestamp.getD now⟩ : Reading)]
      = [mc.metric_type] := by
    unfold metricTypes
    rw [List.map_singleton, List.dedup_cons_of_not_mem (List.not_mem_nil _), List.dedup_nil]
  simp only [groupVals, hmrows, hmt]
  simp [aggValue_singleton]

/-- Witness for C7: ingest `("s1", "temp", 25)` at timestamp 50 into a
store whose only row belongs to another sensor, then query sum over the
window `[0, 86400]`. -/
theorem C7_round_trip_witness :
    parseStat "sum" = some .sum
    ∧ deriveWindow 100 (some ⟨0, some 0⟩) (some ⟨86400, some 0⟩)
        = (⟨0, some 0⟩, ⟨86400, some 0⟩)
    ∧ validateWindow ⟨0, some 0⟩ ⟨86400, some 0⟩ = none
    ∧ (⟨0, some 0⟩ : PyDateTime).instant
        ≤ (⟨"s1", "temp", 25, some 50⟩ : MetricCreate).timestamp.getD 0
    ∧ (⟨"s1", "temp", 25, some 50⟩ : MetricCreate).timestamp.getD 0
        ≤ (⟨86400, some 0⟩ : PyDateTime).instant
    ∧ (∀ r ∈ (⟨[⟨1, "s2", "temp", 99, 50⟩], 2⟩ : Store).rows,
        ¬(r.sensor_id = "s1" ∧ r.metric_type = "temp"
          ∧ (⟨0, some 0⟩ : PyDateTime).instant ≤ r.timestamp
          ∧ r.timestamp ≤ (⟨86400, some 0⟩ : PyDateTime).instant))
    ∧ query_metrics 100 (some ["s1"]) (some ["temp"]) "sum"
        (some ⟨0, some 0⟩) (some ⟨86400, some 0⟩)
        (create_metric 0 ⟨"s1", "temp", 25, some 50⟩ ⟨[⟨1, "s2", "temp", 99, 50⟩], 2⟩).2
      = .ok [⟨"temp", "sum", round2 25⟩] :=
  ⟨rfl, rfl, by decide, by decide, by decide, by decide,
    C7_round_trip 0 100 ⟨[⟨1, "s2", "temp", 99, 50⟩], 2⟩ ⟨"s1", "temp", 25, some 50⟩
      "sum" .sum (some ⟨0, some 0⟩) (some ⟨86400, some 0⟩) ⟨0, some 0⟩ ⟨86400, some 0⟩
      rfl rfl (by decide) (by decide) (by decide) (by decide)⟩

/-- C8: a successful ingestion appends exactly one new row (all previous
rows unchanged, in place), bumps the surrogate-key counter, and returns the
fully populated reading carrying the store-assigned id and the resolved
timestamp (the supplied one, or `now` when absent). -/
theorem C8_append_frame (now : Int) (mc : MetricCreate) (db : Store) :
    (create_metric now mc db).2.rows = db.rows ++ [(create_metric now mc db).1]
    ∧ (create_metric now mc db).2.nextId = db.nextId + 1
    ∧ (create_metric now mc db).1
        = ⟨db.nextId, mc.sensor_id, mc.metric_type, mc.value, mc.timestamp.getD now⟩
    ∧ ∀ r ∈ db.rows, r ∈ (create_metric now mc db).2.rows :=
  ⟨rfl, rfl, rfl, fun _ hr => List.mem_append_left _ hr⟩

/-- Counterexample to C5 as stated: an ingestion request with an empty
`sensor_id` does not fail -- the row is appended to the store with the
empty string kept, because the request model declares no non-emptiness
constraint. -/
theorem C5_counterexample :
    (create_metric 0 ⟨"", "temperature", 25, some 0⟩ ⟨[], 1⟩).2.rows
      = [⟨1, "", "temperature", 25, 0⟩]
    ∧ (create_metric 0 ⟨"", "temperature", 25, some 0⟩ ⟨[], 1⟩).1.sensor_id = "" :=
  ⟨rfl, rfl⟩

/-- C5 (amended): an ingestion request whose `sensor_id` or `metric_type`
is an empty string is not rejected: ingestion succeeds, appends the row,
and preserves the empty field, since the code performs only structural type
validation. -/
theorem C5_amended_no_content_validation (now : Int) (db : Store)
    (mc : MetricCreate) (_h : mc.sensor_id = "" ∨ mc.metric_type = "") :
    (create_metric now mc db).2.rows = db.rows ++ [(create_metric now mc db).1]
    ∧ (create_metric now mc db).1.sensor_id = mc.sensor_id
    ∧ (create_metric now mc db).1.metric_type = mc.metric_type :=
  ⟨rfl, rfl, rfl⟩

/-- Witness for the amended C5 at a concrete empty-sensor-id request. -/
theorem C5_amended_no_content_validation_witness :
    ((⟨"", "temperature", 25, some 0⟩ : MetricCreate).sensor_id = ""
      ∨ (⟨"", "temperature", 25, some 0⟩ : MetricCreate).metric_type = "")
    ∧ ((create_metric 7 ⟨"", "temperature", 25, some 0⟩ ⟨[], 1⟩).2.rows
        = (⟨[], 1⟩ : Store).rows
          ++ [(create_metric 7 ⟨"", "temperature", 25, some 0⟩ ⟨[], 1⟩).1]
      ∧ (create_metric 7 ⟨"", "temperature", 25, some 0⟩ ⟨[], 1⟩).1.sensor_id
        = (⟨"", "temperature", 25, some 0⟩ : MetricCreate).sensor_id
      ∧ (create_metric 7 ⟨"", "temperature", 25, some 0⟩ ⟨[], 1⟩).1.metric_type
        = (⟨"", "temperature", 25, some 0⟩ : MetricCreate).metric_type) :=
  ⟨Or.inl rfl,
    C5_amended_no_content_validation 7 ⟨[], 1⟩ ⟨"", "temperature", 25, some 0⟩ (Or.inl rfl)⟩

/-- C9 (implicit): supplying `sensor_ids` (resp. `metrics`) as an empty
list applies no filter at all -- the query result is identical to omitting
the parameter -- because the handler guards each filter with Python
truthiness, under which an empty list is falsy. -/
theorem C9_empty_filter_lists (now : Int) (stat : String)
    (sd ed : Option PyDateTime) (db : Store) :
    (∀ me : Option (List String),
      query_metrics now (some []) me stat sd ed db
        = query_metrics now none me stat sd ed db)
    ∧ (∀ si : Option (List String),
      query_metrics now si (some []) stat sd ed db
        = query_metrics now si none stat sd ed db) := by
  have hrow1 : ∀ (me : Option (List String)) (s e : PyDateTime),
      rowMatches (some []) me s e = rowMatches none me s e := fun me s e => rfl
  have hrow2 : ∀ (si : Option (List String)) (s e : PyDateTime),
      rowMatches si (some []) s e = rowMatches si none s e := by
    intro si s e
    funext r
    unfold rowMatches truthy
    rfl
  have hagg1 : ∀ (st : Stat) (me : Option (List String)) (s e : PyDateTime),
      aggregateRows st (some []) me s e db = aggregateRows st none me s e db := by
    intro st me s e
    unfold aggregateRows groupVals matchedRows
    rw [hrow1 me s e]
  have hagg2 : ∀ (st : Stat) (si : Option (List String)) (s e : PyDateTime),
      aggregateRows st si (some []) s e db = aggregateRows st si none s e db := by
    intro st si s e
    unfold aggregateRows groupVals matchedRows
    rw [hrow2 si s e]
  constructor
  · intro me
    simp only [query_metrics, hagg1]
  · intro si
    simp only [query_metrics, hagg2]

/-- C10: with only `start_date` supplied and that bound (after UTC
attachment) strictly after `now`, the missing end bound resolves to `now`
and the call always fails with "Start date cannot be after end date.",
whatever the store contains: an open-ended future-start query can never
succeed. -/
theorem C10_future_start (now : Int) (si me : Option (List String))
    (stat : String) (st : Stat) (sd : PyDateTime) (db : Store)
    (hstat : parseStat stat = some st)
    (h : now < (attachUTC sd).instant) :
    query_metrics now si me stat (some sd) none db
      = .error (.badRequest "Start date cannot be after end date.") := by
  have hw : deriveWindow now (some sd) none = (attachUTC sd, ⟨now, some 0⟩) := rfl
  have he : (⟨now, some 0⟩ : PyDateTime).instant = now := by
    simp [PyDateTime.instant]
  exact query_metrics_eq_error hstat hw
    (validateWindow_start_after (by rw [he]; exact h))

/-- Witness for C10: start one second in the future of `now = 0`, naive (so
UTC is attached), over an arbitrary one-row store. -/
theorem C10_future_start_witness :
    (0 : Int) < (attachUTC ⟨1, none⟩).instant
    ∧ query_metrics 0 none none "max" (some ⟨1, none⟩) none
        ⟨[⟨1, "s1", "temp", 20, 0⟩], 2⟩
      = .error (.badRequest "Start date cannot be after end date.") :=
  ⟨by decide,
    C10_future_start 0 none none "max" .max ⟨1, none⟩
      ⟨[⟨1, "s1", "temp", 20, 0⟩], 2⟩ rfl (by decide)⟩

end SensorMetrics
